import Mathlib

/-!
Verification of the Everything MCP server adapter (src/src/index.ts).

The repository is a thin adapter around the third-party Everything search
engine.  We shallowly embed the adapter's pure logic: query-string assembly,
engine configuration, error-code mapping, result formatting and the four tool
handlers.  The external native engine is not part of the repository; it is
modelled abstractly as a `FileSystem` (its match sets and failure behaviour)
together with the engine's single global mutable query context, which the
adapter rewrites on every call.  Stateful native calls become explicit state
passing on `EngineState`.
-/

namespace EverythingMCP

/-- Error-code constants from src/src/index.ts lines 21-30. -/
def EVERYTHING_ERROR_MEMORY : Nat := 1

def EVERYTHING_ERROR_IPC : Nat := 2

def EVERYTHING_ERROR_REGISTERCLASSEX : Nat := 3

def EVERYTHING_ERROR_CREATEWINDOW : Nat := 4

def EVERYTHING_ERROR_CREATETHREAD : Nat := 5

def EVERYTHING_ERROR_INVALIDINDEX : Nat := 6

def EVERYTHING_ERROR_INVALIDCALL : Nat := 7

def EVERYTHING_ERROR_INVALIDREQUEST : Nat := 8

def EVERYTHING_ERROR_INVALIDPARAMETER : Nat := 9

/-- Sort-order constants from src/src/index.ts lines 32-39. -/
def EVERYTHING_SORT_NAME_ASCENDING : Nat := 1

def EVERYTHING_SORT_NAME_DESCENDING : Nat := 2

def EVERYTHING_SORT_PATH_ASCENDING : Nat := 3

def EVERYTHING_SORT_PATH_DESCENDING : Nat := 4

def EVERYTHING_SORT_SIZE_ASCENDING : Nat := 5

def EVERYTHING_SORT_SIZE_DESCENDING : Nat := 6

def EVERYTHING_SORT_DATE_MODIFIED_ASCENDING : Nat := 13

def EVERYTHING_SORT_DATE_MODIFIED_DESCENDING : Nat := 14

/-- Request-flag constants from src/src/index.ts lines 41-45. -/
def EVERYTHING_REQUEST_FILE_NAME : Nat := 1

def EVERYTHING_REQUEST_PATH : Nat := 2

def EVERYTHING_REQUEST_FULL_PATH_AND_FILE_NAME : Nat := 4

/-- One result row as read back from the engine by index
(`Everything_GetResultFileNameW`, `Everything_GetResultPathW`,
`Everything_IsFileResult`, `Everything_IsFolderResult`).  The two `str16`
getters may return a null pointer, which koffi surfaces as a JS `null`;
we model the strings as `Option String` (`none` = null). -/
structure ResultRow where
  fileName : Option String
  dirPath : Option String
  isFile : Bool
  isFolder : Bool
deriving Repr, DecidableEq

/-- The engine's single global query context: the parameters written by the
`Everything_Set*` calls and read by the next `Everything_QueryW`. -/
structure QueryConfig where
  searchText : String
  matchCase : Bool
  matchWholeWord : Bool
  regex : Bool
  maxResults : Nat
  offset : Nat
  requestFlags : Nat
  sortOrder : Nat
deriving Repr, DecidableEq

/-- Modelled from the spec: the external Everything engine (a third-party
native library, not code of this repository).  `queryError cfg = some c`
means `Everything_QueryW` fails for configuration `cfg` and
`Everything_GetLastError` then returns `c`; `none` means the query succeeds.
`allMatches cfg` is the full, already sorted match set for the query text
and flags of `cfg`.  Per the spec, the engine honours the configured result
cap: only the first `cfg.maxResults` matches are visible, and
`Everything_GetNumResults` returns the number of visible results. -/
structure FileSystem where
  queryError : QueryConfig → Option Nat
  allMatches : QueryConfig → List ResultRow

/-- The rows visible after the engine applies the `Everything_SetMax` cap;
`Everything_GetNumResults` is the length of this list and the per-index
getters read its entries. -/
def FileSystem.visibleRows (fs : FileSystem) (cfg : QueryConfig) : List ResultRow :=
  (fs.allMatches cfg).take cfg.maxResults

/-- Engine-side state as seen by the adapter process: the global query
context plus the (immutable during a call) indexed file set. -/
structure EngineState where
  cfg : QueryConfig
  fs : FileSystem

/-- The options record accepted by `searchWithEverything`
(src/src/index.ts lines 79-85); every field is optional in TS. -/
structure SearchOptions where
  maxResults : Option Nat := none
  matchCase : Option Bool := none
  matchWholeWord : Option Bool := none
  regex : Option Bool := none
  sortBy : Option String := none

/-- JS `v || d` for an optional number: `undefined` and `0` are falsy. -/
def jsOrNat (v : Option Nat) (d : Nat) : Nat :=
  match v with
  | none => d
  | some n => if n = 0 then d else n

/-- JS `Array.prototype.join(sep)` on a list of strings: empty list gives
the empty string, otherwise the entries separated by `sep`. -/
def jsJoin (sep : String) : List String → String
  | [] => ""
  | [x] => x
  | x :: y :: xs => x ++ sep ++ jsJoin sep (y :: xs)

/-- Character-list splitter behind `jsSplit`: JS `split` keeps empty
segments, and splitting the empty string yields one empty segment. -/
def splitCharsOn (sep : Char) : List Char → List (List Char)
  | [] => [[]]
  | c :: cs =>
      match splitCharsOn sep cs, c == sep with
      | r, true => [] :: r
      | [], false => [[c]]
      | h :: t, false => (c :: h) :: t

/-- JS `String.prototype.split` with a single-character separator. -/
def jsSplit (s : String) (sep : Char) : List String :=
  (splitCharsOn sep s.data).map (fun l => String.mk l)

/-- Whitespace stripped by JS `String.prototype.trim`. -/
def isJsSpace (c : Char) : Bool :=
  c == ' ' || c == '\t' || c == '\n' || c == '\r' || c == '\x0b' || c == '\x0c'

/-- JS `String.prototype.trim`: strip leading and trailing whitespace. -/
def jsTrim (s : String) : String :=
  String.mk (((s.data.dropWhile isJsSpace).reverse.dropWhile isJsSpace).reverse)

/-- JS `path.endsWith('\\')`: whether the last character is a backslash. -/
def endsWithBackslash (s : String) : Bool :=
  match s.data.getLast? with
  | some c => c == '\\'
  | none => false

/-- JS truthiness of an optional string: `undefined`, `null` and the empty
string are falsy. -/
def strTruthy (s : Option String) : Bool :=
  match s with
  | none => false
  | some t => !(t = "")

/-- The `switch (options.sortBy)` of src/src/index.ts lines 99-123: map the
sort name to the engine's numeric sort code, defaulting to name-ascending
for an absent or unrecognized value. -/
def sortOrderOf (sortBy : Option String) : Nat :=
  match sortBy with
  | some "name_desc" => EVERYTHING_SORT_NAME_DESCENDING
  | some "path_asc" => EVERYTHING_SORT_PATH_ASCENDING
  | some "path_desc" => EVERYTHING_SORT_PATH_DESCENDING
  | some "size_asc" => EVERYTHING_SORT_SIZE_ASCENDING
  | some "size_desc" => EVERYTHING_SORT_SIZE_DESCENDING
  | some "date_asc" => EVERYTHING_SORT_DATE_MODIFIED_ASCENDING
  | some "date_desc" => EVERYTHING_SORT_DATE_MODIFIED_DESCENDING
  | _ => EVERYTHING_SORT_NAME_ASCENDING

/-- The query context written by the block of `Everything_Set*` calls in
src/src/index.ts lines 88-123: search text, `options.matchCase || false`,
`options.matchWholeWord || false`, `options.regex || false`,
`options.maxResults || 100`, offset `0`, the fixed request-flag mask
(file name, path, full path) and the mapped sort order. -/
def buildConfig (query : String) (opts : SearchOptions) : QueryConfig where
  searchText := query
  matchCase := opts.matchCase.getD false
  matchWholeWord := opts.matchWholeWord.getD false
  regex := opts.regex.getD false
  maxResults := jsOrNat opts.maxResults 100
  offset := 0
  requestFlags :=
    EVERYTHING_REQUEST_FILE_NAME ||| EVERYTHING_REQUEST_PATH |||
      EVERYTHING_REQUEST_FULL_PATH_AND_FILE_NAME
  sortOrder := sortOrderOf opts.sortBy

/-- The `switch (errorCode)` of src/src/index.ts lines 130-160: nine mapped
messages, any other code keeps the generic initial message. -/
def errorMessageFor (errorCode : Nat) : String :=
  match errorCode with
  | 1 => "Out of memory"
  | 2 => "Everything search client is not running"
  | 3 => "Unable to register window class"
  | 4 => "Unable to create listening window"
  | 5 => "Unable to create listening thread"
  | 6 => "Invalid index"
  | 7 => "Invalid call"
  | 8 => "Invalid request data, request data first"
  | 9 => "Bad parameter"
  | n => "Everything query failed with error code: " ++ toString n

/-- The full-path computation of src/src/index.ts lines 175-180:
`if (path && fileName)` join with a backslash unless `path` already ends
with one, `else if (fileName)` the file name alone, else the empty string.
JS truthiness makes the empty string behave like an absent one. -/
def joinPath (dirPath fileName : Option String) : String :=
  if strTruthy dirPath && strTruthy fileName then
    let p := dirPath.getD ""
    let f := fileName.getD ""
    if endsWithBackslash p then p ++ f else p ++ "\\" ++ f
  else if strTruthy fileName then fileName.getD ""
  else ""

/-- The type tag of src/src/index.ts line 182. -/
def rowTypeTag (isFile isFolder : Bool) : String :=
  if isFile then "[FILE]" else if isFolder then "[FOLDER]" else "[UNKNOWN]"

/-- One pushed line of the result loop, src/src/index.ts lines 169-183. -/
def formatRow (r : ResultRow) : String :=
  rowTypeTag r.isFile r.isFolder ++ " " ++ joinPath r.dirPath r.fileName

/-- The value returned by `searchWithEverything`
(src/src/index.ts line 85). -/
structure QueryOutcome where
  results : List String
  totalResults : Nat
  error : Option String := none
deriving Repr, DecidableEq

/-- src/src/index.ts lines 79-194, `searchWithEverything`: overwrite the
engine's query context from the arguments, execute the query; on failure
read the last error and map it; on success read `Everything_GetNumResults`
and push one formatted line per index below it.  The loop over indices
`0 ≤ i < numResults` reading the per-index getters is modelled as a map
over the visible rows. -/
def searchWithEverything (query : String) (opts : SearchOptions)
    (s : EngineState) : EngineState × QueryOutcome :=
  let cfg := buildConfig query opts
  let s' : EngineState := { s with cfg := cfg }
  match s'.fs.queryError cfg with
  | some code =>
      (s', { results := [], totalResults := 0, error := some (errorMessageFor code) })
  | none =>
      let rows := s'.fs.visibleRows cfg
      (s', { results := rows.map formatRow, totalResults := rows.length, error := none })

/-- An MCP tool response: the single text block and the `isError` flag
(absent in TS means not an error). -/
structure ToolResponse where
  text : String
  isError : Bool := false
deriving Repr, DecidableEq

/-- Parameters of the `search_files` tool (src/src/index.ts lines 248-254);
zod bounds `maxResults` to 1..20 with destructuring default 20. -/
structure SearchFilesParams where
  query : String
  maxResults : Option Nat := none
  matchCase : Option Bool := none
  matchWholeWord : Option Bool := none
  regex : Option Bool := none

/-- src/src/index.ts lines 245-298, the `search_files` handler: run the
search with the five parameters, report an error-flagged `Error: ...`
response on failure, otherwise `Found N files (showing M): ...` or the
`No files found` message when no line was produced. -/
def search_files (p : SearchFilesParams) (s : EngineState) :
    EngineState × ToolResponse :=
  let maxResults := p.maxResults.getD 20
  let matchCase := p.matchCase.getD false
  let matchWholeWord := p.matchWholeWord.getD false
  let regex := p.regex.getD false
  let r := searchWithEverything p.query
    { maxResults := some maxResults, matchCase := some matchCase,
      matchWholeWord := some matchWholeWord, regex := some regex } s
  let s' := r.1
  let out := r.2
  match out.error with
  | some e => (s', { text := "Error: " ++ e, isError := true })
  | none =>
      let text :=
        if out.results.length > 0 then
          "Found " ++ toString out.totalResults ++ " files (showing " ++
            toString out.results.length ++ "):\n\n" ++
            jsJoin "\n" out.results
        else
          "No files found matching \"" ++ p.query ++ "\""
      (s', { text := text })

/-- Parameters of the `search_files_advanced` tool
(src/src/index.ts lines 304-314). -/
structure AdvancedParams where
  query : String
  path : Option String := none
  extension : Option String := none
  size : Option String := none
  dateModified : Option String := none
  maxResults : Option Nat := none
  matchCase : Option Bool := none
  matchWholeWord : Option Bool := none
  regex : Option Bool := none
  sortBy : Option String := none

/-- The filter-prefixing chain of src/src/index.ts lines 330-346: starting
from the raw query, prepend `path:"..." `, then `ext:... `, then
`size:... `, then `dm:... `, each only when the filter is truthy. -/
def advancedQuery (p : AdvancedParams) : String :=
  let q := p.query
  let q := if strTruthy p.path then "path:\"" ++ p.path.getD "" ++ "\" " ++ q else q
  let q := if strTruthy p.extension then "ext:" ++ p.extension.getD "" ++ " " ++ q else q
  let q := if strTruthy p.size then "size:" ++ p.size.getD "" ++ " " ++ q else q
  let q := if strTruthy p.dateModified then "dm:" ++ p.dateModified.getD "" ++ " " ++ q else q
  q

/-- The filter-summary list of src/src/index.ts lines 371-375. -/
def advancedFilters (p : AdvancedParams) : List String :=
  (if strTruthy p.path then ["path: \"" ++ p.path.getD "" ++ "\""] else []) ++
  (if strTruthy p.extension then ["extension: " ++ p.extension.getD ""] else []) ++
  (if strTruthy p.size then ["size: " ++ p.size.getD ""] else []) ++
  (if strTruthy p.dateModified then ["date modified: " ++ p.dateModified.getD ""] else [])

/-- src/src/index.ts lines 301-403, the `search_files_advanced` handler:
assemble the filtered query, run the search with all options, and render
the summary line (total, applied filters, shown count, sort key) followed
by the result lines or the `No files found` message. -/
def search_files_advanced (p : AdvancedParams) (s : EngineState) :
    EngineState × ToolResponse :=
  let maxResults := p.maxResults.getD 100
  let matchCase := p.matchCase.getD false
  let matchWholeWord := p.matchWholeWord.getD false
  let regex := p.regex.getD false
  let sortBy := p.sortBy.getD "name_asc"
  let r := searchWithEverything (advancedQuery p)
    { maxResults := some maxResults, matchCase := some matchCase,
      matchWholeWord := some matchWholeWord, regex := some regex,
      sortBy := some sortBy } s
  let s' := r.1
  let out := r.2
  match out.error with
  | some e => (s', { text := "Error: " ++ e, isError := true })
  | none =>
      let filters := advancedFilters p
      let base := "Found " ++ toString out.totalResults ++ " files"
      let base :=
        if filters.length > 0 then
          base ++ " (filtered by " ++ jsJoin ", " filters ++ ")"
        else base
      let text := base ++ " (showing " ++ toString out.results.length ++
        ", sorted by " ++ sortBy ++ "):\n\n" ++
        (if out.results.length > 0 then jsJoin "\n" out.results
         else "No files found matching \"" ++ p.query ++ "\"")
      (s', { text := text })

/-- Parameters of the `find_duplicates` tool
(src/src/index.ts lines 410-412). -/
structure DuplicatesParams where
  filename : String
  path : Option String := none
  maxResults : Option Nat := none

/-- src/src/index.ts lines 406-465, the `find_duplicates` handler: query is
the filename, prefixed by `path:"..." ` when a path is given; the search
runs with `matchWholeWord: true` and no other flag; the outcome is
classified on `totalResults` into more-than-one, exactly-one and zero. -/
def find_duplicates (p : DuplicatesParams) (s : EngineState) :
    EngineState × ToolResponse :=
  let maxResults := p.maxResults.getD 50
  let searchQuery :=
    if strTruthy p.path then "path:\"" ++ p.path.getD "" ++ "\" " ++ p.filename
    else p.filename
  let r := searchWithEverything searchQuery
    { maxResults := some maxResults, matchWholeWord := some true } s
  let s' := r.1
  let out := r.2
  match out.error with
  | some e => (s', { text := "Error: " ++ e, isError := true })
  | none =>
      let text :=
        if out.totalResults > 1 then
          "Found " ++ toString out.totalResults ++ " instances of \"" ++
            p.filename ++ "\" (showing " ++ toString out.results.length ++
            "):\n\n" ++ jsJoin "\n" out.results
        else if out.totalResults = 1 then
          "Found only 1 instance of \"" ++ p.filename ++ "\":\n\n" ++
            out.results.headD "undefined"
        else
          "No files found with name \"" ++ p.filename ++ "\""
      (s', { text := text })

/-- Parameters of the `search_content` tool
(src/src/index.ts lines 492-495). -/
structure ContentParams where
  content : String
  fileTypes : Option String := none
  path : Option String := none
  maxResults : Option Nat := none

/-- The query assembly of src/src/index.ts lines 499-508:
`content:"<content>"`, prefixed by an OR-group of `ext:` clauses built from
the semicolon-split, trimmed fileTypes when given, then by `path:"..." `
when given. -/
def contentQuery (p : ContentParams) : String :=
  let q := "content:\"" ++ p.content ++ "\""
  let q :=
    if strTruthy p.fileTypes then
      let types := jsJoin " | "
        ((jsSplit (p.fileTypes.getD "") ';').map (fun t => "ext:" ++ jsTrim t))
      "(" ++ types ++ ") " ++ q
    else q
  let q := if strTruthy p.path then "path:\"" ++ p.path.getD "" ++ "\" " ++ q else q
  q

/-- src/src/index.ts lines 488-550, the `search_content` handler: run the
assembled content query (only maxResults set among the options); failure
and empty-result texts carry the content-indexing advisory note. -/
def search_content (p : ContentParams) (s : EngineState) :
    EngineState × ToolResponse :=
  let maxResults := p.maxResults.getD 50
  let r := searchWithEverything (contentQuery p)
    { maxResults := some maxResults } s
  let s' := r.1
  let out := r.2
  match out.error with
  | some e =>
      let msg := "Error: " ++ e ++
        ". Note: Content search requires Everything to have content indexing enabled."
      (s', { text := msg, isError := true })
  | none =>
      let text :=
        if out.results.length > 0 then
          "Found " ++ toString out.totalResults ++ " files containing \"" ++
            p.content ++ "\" (showing " ++ toString out.results.length ++
            "):\n\n" ++ jsJoin "\n" out.results
        else
          "No files found containing \"" ++ p.content ++
            "\". Note: Content search requires Everything to have content indexing enabled."
      (s', { text := text })

/-! Concrete engine fixtures used to evaluate the model. -/

/-- An arbitrary initial query context (stale values from an earlier call). -/
def cfg0 : QueryConfig where
  searchText := "stale"
  matchCase := true
  matchWholeWord := true
  regex := true
  maxResults := 7
  offset := 3
  requestFlags := 0
  sortOrder := 6

/-- An engine whose every query fails, with last error code 2 (IPC down). -/
def fsIpcDown : FileSystem where
  queryError := fun _ => some 2
  allMatches := fun _ => []

/-- An engine that succeeds with an empty match set. -/
def fsEmpty : FileSystem where
  queryError := fun _ => none
  allMatches := fun _ => []

/-- A file row named `a.txt` under `C:\x`. -/
def rowA : ResultRow where
  fileName := some "a.txt"
  dirPath := some "C:\\x"
  isFile := true
  isFolder := false

/-- A second file row named `a.txt` under `C:\y`. -/
def rowB : ResultRow where
  fileName := some "a.txt"
  dirPath := some "C:\\y"
  isFile := true
  isFolder := false

/-- An engine that succeeds and matches exactly `rowA` on every query. -/
def fsOne : FileSystem where
  queryError := fun _ => none
  allMatches := fun _ => [rowA]

/-- An engine that succeeds and matches `rowA` and `rowB` on every query. -/
def fsTwo : FileSystem where
  queryError := fun _ => none
  allMatches := fun _ => [rowA, rowB]

/-- Engine states pairing the stale context with each fixture engine. -/
def stIpcDown : EngineState := { cfg := cfg0, fs := fsIpcDown }

/-- Engine state over the empty-match engine. -/
def stEmpty : EngineState := { cfg := cfg0, fs := fsEmpty }

/-- Engine state over the one-match engine. -/
def stOne : EngineState := { cfg := cfg0, fs := fsOne }

/-- Engine state over the two-match engine. -/
def stTwo : EngineState := { cfg := cfg0, fs := fsTwo }

/-! Theorems for the claims. -/

/-- Claim C2: `search_files_advanced` assembles the effective query text by
prepending, each only if provided, `path:"..."`, then `ext:...`, then
`size:...`, then `dm:...` in front of the growing string, so that with all
four filters present the final string is
`dm:<dateModified> size:<size> ext:<extension> path:"<path>" <query>`, and
for query `report`, path `C:\Docs`, extension `pdf` the assembled text is
`ext:pdf path:"C:\Docs" report`. -/
theorem C2_advanced_query_assembly :
    (∀ (q pa ex sz dm : String), pa ≠ "" → ex ≠ "" → sz ≠ "" → dm ≠ "" →
      advancedQuery { query := q, path := some pa, extension := some ex,
                      size := some sz, dateModified := some dm } =
        "dm:" ++ dm ++ " size:" ++ sz ++ " ext:" ++ ex ++ " path:\"" ++ pa ++ "\" " ++ q) ∧
    advancedQuery { query := "report", path := some "C:\\Docs", extension := some "pdf" } =
      "ext:pdf path:\"C:\\Docs\" report" := by
  constructor
  · intro q pa ex sz dm hpa hex hsz hdm
    simp [advancedQuery, strTruthy, hpa, hex, hsz, hdm, String.append_assoc]
    rfl
  · rfl

/-- Witness for C2: the general assembly theorem applied at concrete
filters. -/
theorem C2_advanced_query_assembly_witness :
    advancedQuery { query := "q", path := some "p", extension := some "e",
                    size := some "s", dateModified := some "d" } =
      "dm:d size:s ext:e path:\"p\" q" :=
  (C2_advanced_query_assembly.1 "q" "p" "e" "s" "d"
    (by decide) (by decide) (by decide) (by decide)).trans (by decide)

/-- Claim C5: `search_content` builds the query as `content:"<content>"`,
prepends an OR-group `(ext:t1 | ext:t2 | ...)` with one `ext:` clause per
semicolon-separated trimmed entry of `fileTypes` when given, and prefixes
`path:"<path>" ` when given; for fileTypes `txt;pdf` the OR-group is
`(ext:txt | ext:pdf)`. -/
theorem C5_content_query_assembly :
    (∀ (c pa ft : String), pa ≠ "" → ft ≠ "" →
      contentQuery { content := c, fileTypes := some ft, path := some pa } =
        "path:\"" ++ pa ++ "\" (" ++
          jsJoin " | " ((jsSplit ft ';').map (fun t => "ext:" ++ jsTrim t)) ++
          ") content:\"" ++ c ++ "\"") ∧
    contentQuery { content := "hello", fileTypes := some "txt;pdf" } =
      "(ext:txt | ext:pdf) content:\"hello\"" := by
  constructor
  · intro c pa ft hpa hft
    simp [contentQuery, strTruthy, hpa, hft, String.append_assoc]
    rfl
  · rfl

/-- Witness for C5: the general assembly theorem applied at concrete
arguments. -/
theorem C5_content_query_assembly_witness :
    contentQuery { content := "x", fileTypes := some "txt; pdf", path := some "C:\\D" } =
      "path:\"C:\\D\" (ext:txt | ext:pdf) content:\"x\"" :=
  (C5_content_query_assembly.1 "x" "C:\\D" "txt; pdf"
    (by decide) (by decide)).trans (by decide)

/-- Claim C6: the formatted full path joins the directory path and the file
name with a backslash, inserting the separator only when the directory path
does not already end with one; for `C:\Users\x` and `a.txt` the result is
`C:\Users\x\a.txt`, and a directory already ending in a separator gets no
duplicate separator. -/
theorem C6_path_join :
    joinPath (some "C:\\Users\\x") (some "a.txt") = "C:\\Users\\x\\a.txt" ∧
    (∀ (p f : String), p ≠ "" → f ≠ "" → endsWithBackslash p = true →
      joinPath (some p) (some f) = p ++ f) ∧
    (∀ (p f : String), p ≠ "" → f ≠ "" → endsWithBackslash p = false →
      joinPath (some p) (some f) = p ++ "\\" ++ f) := by
  refine ⟨rfl, ?_, ?_⟩
  · intro p f hp hf hend
    simp [joinPath, strTruthy, hp, hf, hend]
  · intro p f hp hf hend
    simp [joinPath, strTruthy, hp, hf, hend]

/-- Witness for C6: both join cases applied at concrete paths. -/
theorem C6_path_join_witness :
    joinPath (some "C:\\") (some "f.txt") = "C:\\f.txt" ∧
    joinPath (some "C:\\d") (some "f.txt") = "C:\\d\\f.txt" :=
  ⟨(C6_path_join.2.1 "C:\\" "f.txt" (by decide) (by decide) (by decide)).trans (by decide),
   (C6_path_join.2.2 "C:\\d" "f.txt" (by decide) (by decide) (by decide)).trans (by decide)⟩

/-- Helper: a search call never changes the engine's indexed file set. -/
theorem searchWithEverything_fs (q : String) (o : SearchOptions) (s : EngineState) :
    (searchWithEverything q o s).1.fs = s.fs := by
  simp only [searchWithEverything]
  split <;> rfl

/-- Helper: `search_files` never changes the indexed file set. -/
theorem search_files_fs (p : SearchFilesParams) (s : EngineState) :
    (search_files p s).1.fs = s.fs := by
  simp only [search_files]
  split <;> exact searchWithEverything_fs _ _ _

/-- Helper: `search_files_advanced` never changes the indexed file set. -/
theorem search_files_advanced_fs (p : AdvancedParams) (s : EngineState) :
    (search_files_advanced p s).1.fs = s.fs := by
  simp only [search_files_advanced]
  split <;> exact searchWithEverything_fs _ _ _

/-- Helper: `find_duplicates` never changes the indexed file set. -/
theorem find_duplicates_fs (p : DuplicatesParams) (s : EngineState) :
    (find_duplicates p s).1.fs = s.fs := by
  simp only [find_duplicates]
  split <;> exact searchWithEverything_fs _ _ _

/-- Helper: `search_content` never changes the indexed file set. -/
theorem search_content_fs (p : ContentParams) (s : EngineState) :
    (search_content p s).1.fs = s.fs := by
  simp only [search_content]
  split <;> exact searchWithEverything_fs _ _ _

/-- Helper: any call that ignores the inherited query context and preserves
the file set gives the same answer when repeated. -/
theorem repeat_eq {α : Type} (f : EngineState → EngineState × α)
    (hcfg : ∀ (c1 c2 : QueryConfig) (fs : FileSystem),
      f { cfg := c1, fs := fs } = f { cfg := c2, fs := fs })
    (hfs : ∀ s, (f s).1.fs = s.fs) (s : EngineState) :
    f (f s).1 = f s := by
  obtain ⟨c, fs⟩ := s
  calc f (f ⟨c, fs⟩).1
      = f ⟨(f ⟨c, fs⟩).1.cfg, (f ⟨c, fs⟩).1.fs⟩ := rfl
    _ = f ⟨(f ⟨c, fs⟩).1.cfg, fs⟩ := by rw [hfs ⟨c, fs⟩]
    _ = f ⟨c, fs⟩ := hcfg _ c fs

/-- Claim C7: every invocation fully overwrites all configurable engine
parameters before executing the query — the executed context is exactly
`buildConfig` of the arguments (search text, flags with absent ones false,
result cap, offset reset to zero, request fields, sort order) — so no
query-context state set by one call influences a subsequent call. -/
theorem C7_full_overwrite :
    ∀ (q : String) (o : SearchOptions) (s : EngineState),
      (searchWithEverything q o s).1.cfg = buildConfig q o ∧
      (buildConfig q o).offset = 0 ∧
      ∀ (c1 c2 : QueryConfig) (fs : FileSystem),
        searchWithEverything q o { cfg := c1, fs := fs } =
          searchWithEverything q o { cfg := c2, fs := fs } := by
  intro q o s
  refine ⟨?_, rfl, fun c1 c2 fs => rfl⟩
  simp only [searchWithEverything]
  split <;> rfl

/-- Claim C8: with a fixed underlying file set, calling any of the four
tools (or the shared search routine) twice with identical parameters yields
identical responses — the adapter is deterministic given the engine's
responses. -/
theorem C8_idempotent :
    ∀ (s : EngineState),
      (∀ (q : String) (o : SearchOptions),
        (searchWithEverything q o (searchWithEverything q o s).1).2 =
          (searchWithEverything q o s).2) ∧
      (∀ p : SearchFilesParams,
        (search_files p (search_files p s).1).2 = (search_files p s).2) ∧
      (∀ p : AdvancedParams,
        (search_files_advanced p (search_files_advanced p s).1).2 =
          (search_files_advanced p s).2) ∧
      (∀ p : DuplicatesParams,
        (find_duplicates p (find_duplicates p s).1).2 = (find_duplicates p s).2) ∧
      (∀ p : ContentParams,
        (search_content p (search_content p s).1).2 = (search_content p s).2) := by
  intro s
  refine ⟨fun q o => ?_, fun p => ?_, fun p => ?_, fun p => ?_, fun p => ?_⟩
  · exact congrArg Prod.snd
      (repeat_eq (searchWithEverything q o) (fun _ _ _ => rfl)
        (searchWithEverything_fs q o) s)
  · exact congrArg Prod.snd
      (repeat_eq (search_files p) (fun _ _ _ => rfl) (search_files_fs p) s)
  · exact congrArg Prod.snd
      (repeat_eq (search_files_advanced p) (fun _ _ _ => rfl)
        (search_files_advanced_fs p) s)
  · exact congrArg Prod.snd
      (repeat_eq (find_duplicates p) (fun _ _ _ => rfl) (find_duplicates_fs p) s)
  · exact congrArg Prod.snd
      (repeat_eq (search_content p) (fun _ _ _ => rfl) (search_content_fs p) s)

/-- Claim C9: on every successful call the returned results list has exactly
as many entries as the returned `totalResults` value — both come from the
same capped `Everything_GetNumResults` reading, one line pushed per index. -/
theorem C9_results_length_eq_total :
    ∀ (q : String) (o : SearchOptions) (s : EngineState),
      (searchWithEverything q o s).2.error = none →
      (searchWithEverything q o s).2.results.length =
        (searchWithEverything q o s).2.totalResults := by
  intro q o s h
  cases hq : s.fs.queryError (buildConfig q o) with
  | none => simp [searchWithEverything, hq]
  | some c => simp [searchWithEverything, hq] at h

/-- Witness for C9 at a concrete successful call. -/
theorem C9_results_length_eq_total_witness :
    (searchWithEverything "a.txt" {} stTwo).2.results.length =
      (searchWithEverything "a.txt" {} stTwo).2.totalResults :=
  C9_results_length_eq_total "a.txt" {} stTwo rfl

/-- Claim C10: the result formatter is total over degenerate rows: an empty
or absent directory path with a file name present gives the file name alone,
both missing give the empty string, and every row yields exactly one line
tagged `[FILE]`, `[FOLDER]` or `[UNKNOWN]` (one line per visible row). -/
theorem C10_formatter_total :
    (∀ f : String, joinPath none (some f) = f ∧ joinPath (some "") (some f) = f) ∧
    (joinPath none none = "" ∧ joinPath (some "") none = "") ∧
    (∀ r : ResultRow,
      formatRow r = "[FILE] " ++ joinPath r.dirPath r.fileName ∨
      formatRow r = "[FOLDER] " ++ joinPath r.dirPath r.fileName ∨
      formatRow r = "[UNKNOWN] " ++ joinPath r.dirPath r.fileName) ∧
    (∀ (q : String) (o : SearchOptions) (s : EngineState),
      (searchWithEverything q o s).2.error = none →
      (searchWithEverything q o s).2.results =
        (s.fs.visibleRows (buildConfig q o)).map formatRow) := by
  refine ⟨?_, ⟨rfl, rfl⟩, ?_, ?_⟩
  · intro f
    by_cases hf : f = ""
    · subst hf
      exact ⟨rfl, rfl⟩
    · constructor <;> simp [joinPath, strTruthy, hf]
  · intro r
    rcases r with ⟨fn, dp, f, d⟩
    cases f <;> cases d
    · exact Or.inr (Or.inr rfl)
    · exact Or.inr (Or.inl rfl)
    · exact Or.inl rfl
    · exact Or.inl rfl
  · intro q o s h
    cases hq : s.fs.queryError (buildConfig q o) with
    | none => simp [searchWithEverything, hq]
    | some c => simp [searchWithEverything, hq] at h

/-- Witness for C10 at a concrete successful call with a degenerate row. -/
theorem C10_formatter_total_witness :
    (searchWithEverything "a.txt" {} stOne).2.results =
      (stOne.fs.visibleRows (buildConfig "a.txt" {})).map formatRow :=
  C10_formatter_total.2.2.2 "a.txt" {} stOne rfl

/-- Counterexample for C3: on a native failure with error code 2 the tool
response is error-flagged, but its text is
`Error: Everything search client is not running` — the handler prefixes
`Error: ` — and so does not equal the bare mapped message as claimed. -/
theorem C3_text_not_bare_message :
    (search_files { query := "x" } stIpcDown).2.isError = true ∧
    (search_files { query := "x" } stIpcDown).2.text =
      "Error: Everything search client is not running" ∧
    (search_files { query := "x" } stIpcDown).2.text ≠
      "Everything search client is not running" := by
  refine ⟨rfl, rfl, ?_⟩
  decide

/-- Claim C3 (amended): when the native query call fails, the adapter maps
last-error codes 1-9 to nine fixed messages and any other code to
`Everything query failed with error code: N`; for error code 2 the
`search_files` response is error-flagged and its text equals
`Error: Everything search client is not running` (the handler prefixes
`Error: ` to the mapped message). -/
theorem C3_error_mapping :
    (errorMessageFor 1 = "Out of memory" ∧
     errorMessageFor 2 = "Everything search client is not running" ∧
     errorMessageFor 3 = "Unable to register window class" ∧
     errorMessageFor 4 = "Unable to create listening window" ∧
     errorMessageFor 5 = "Unable to create listening thread" ∧
     errorMessageFor 6 = "Invalid index" ∧
     errorMessageFor 7 = "Invalid call" ∧
     errorMessageFor 8 = "Invalid request data, request data first" ∧
     errorMessageFor 9 = "Bad parameter") ∧
    (∀ n : Nat, n = 0 ∨ 10 ≤ n →
      errorMessageFor n = "Everything query failed with error code: " ++ toString n) ∧
    (∀ (fs : FileSystem) (c : QueryConfig) (p : SearchFilesParams),
      (∀ cf, fs.queryError cf = some 2) →
      (search_files p { cfg := c, fs := fs }).2 =
        { text := "Error: Everything search client is not running", isError := true }) := by
  refine ⟨⟨rfl, rfl, rfl, rfl, rfl, rfl, rfl, rfl, rfl⟩, ?_, ?_⟩
  · intro n hn
    rcases hn with h0 | h10
    · subst h0
      rfl
    · obtain ⟨m, rfl⟩ : ∃ m, n = m + 10 := ⟨n - 10, by omega⟩
      rfl
  · intro fs c p h
    simp [search_files, searchWithEverything, h, errorMessageFor]

/-- Witness for C3: the generic fallback at code 12 and the code-2 response
at a concrete engine. -/
theorem C3_error_mapping_witness :
    errorMessageFor 12 = "Everything query failed with error code: 12" ∧
    (search_files { query := "x" } stIpcDown).2 =
      { text := "Error: Everything search client is not running", isError := true } :=
  ⟨C3_error_mapping.2.1 12 (Or.inr (by omega)),
   C3_error_mapping.2.2 fsIpcDown cfg0 { query := "x" } (fun _ => rfl)⟩

/-- Claim C1 (code bug): with two matching rows in the engine and the valid
bound `maxResults = 1`, `search_files` reports `Found 1 files` — the count
it reports is `Everything_GetNumResults`, already capped by
`Everything_SetMax`, and always equals the line count — while the true
total match count of the executed query is 2, which the claim (and the
`Found N files (showing M)` wording) says should be reported. -/
theorem C1_reported_total_is_capped :
    (search_files { query := "a.txt", maxResults := some 1 } stTwo).2 =
      { text := "Found 1 files (showing 1):\n\n[FILE] C:\\x\\a.txt", isError := false } ∧
    (stTwo.fs.allMatches
        ((search_files { query := "a.txt", maxResults := some 1 } stTwo).1.cfg)).length = 2 :=
  ⟨rfl, rfl⟩

/-- Claim C4 (code bug): `find_duplicates` builds `path:"<path>" <filename>`
when a path is given, forces whole-word matching with the other flags
false, and classifies on the reported count — but that count is the capped
`Everything_GetNumResults`: with two instances of `a.txt` in the engine and
`maxResults = 1` it answers `Found only 1 instance`, although the true
total of the executed query is 2 and the claim requires `Found 2
instances`. -/
theorem C4_find_duplicates_behaviour :
    (find_duplicates { filename := "a.txt", path := some "C:\\D" } stTwo).1.cfg.searchText =
      "path:\"C:\\D\" a.txt" ∧
    ((find_duplicates { filename := "a.txt" } stTwo).1.cfg.matchWholeWord = true ∧
     (find_duplicates { filename := "a.txt" } stTwo).1.cfg.matchCase = false ∧
     (find_duplicates { filename := "a.txt" } stTwo).1.cfg.regex = false) ∧
    (find_duplicates { filename := "a.txt" } stEmpty).2.text =
      "No files found with name \"a.txt\"" ∧
    (find_duplicates { filename := "a.txt" } stOne).2.text =
      "Found only 1 instance of \"a.txt\":\n\n[FILE] C:\\x\\a.txt" ∧
    (find_duplicates { filename := "a.txt" } stTwo).2.text =
      "Found 2 instances of \"a.txt\" (showing 2):\n\n[FILE] C:\\x\\a.txt\n[FILE] C:\\y\\a.txt" ∧
    ((find_duplicates { filename := "a.txt", maxResults := some 1 } stTwo).2.text =
      "Found only 1 instance of \"a.txt\":\n\n[FILE] C:\\x\\a.txt" ∧
     (stTwo.fs.allMatches
        ((find_duplicates { filename := "a.txt", maxResults := some 1 } stTwo).1.cfg)).length = 2) :=
  ⟨rfl, ⟨rfl, rfl, rfl⟩, rfl, rfl, rfl, rfl, rfl⟩

end EverythingMCP
